import Mathlib

/-!
Verification of the spreed-webrtc signaling core (hub.go) against its
natural-language specification.  The Go code is shallowly embedded: the
hub's `clients` map becomes an association list, the RWMutex-guarded
operations become pure state transformers, and `Close(false)` calls are
recorded in an explicit log so that "the prior client was forcibly
closed non-gracefully" is a provable statement.  Third-party crypto
(securecookie, SHA-256, HMAC-SHA1, base64) enters as symbolic
collaborators; the repository code under verification is the composition
logic around them.
-/

namespace Spreed

/-- Modelled from the spec: the `Session` struct is declared outside the
given source files; per the spec's data model it carries a unique `id`
and an optional stable `userid` (room fields are handled by the separate
dispatcher model below).  Only the fields read by hub.go are embedded. -/
structure Session where
  Id : String
  Userid : String
deriving DecidableEq

/-- Modelled from the spec: the client capability is an interface owned
by the transport layer (`Send`/`Close`/`Session`/`Index`); for the
registry we embed its identity (`Index`) and its bound session. -/
structure Client where
  index : Nat
  session : Session
deriving DecidableEq

/-- State of the `hub` struct from hub.go: the `clients` map (embedded as
an association list, mirroring a Go map whose keys are unique), a log of
`Close(graceful)` calls made on clients (by client index), the two
securecookie keys backing `h.contacts`, the TURN shared secret and the
configured TURN URIs. -/
structure Hub where
  clients : List (String × Client)
  closed : List (Nat × Bool)
  hashKey : Nat
  blockKey : Nat
  turnSecret : List Nat
  turnURIs : List String
deriving DecidableEq

/-- Go map read `h.clients[id]` (first matching key; keys are unique in
any state reachable by the hub's operations). -/
def mapGet (l : List (String × Client)) (k : String) : Option Client :=
  match l with
  | [] => none
  | (k0, v) :: rest => if k0 = k then some v else mapGet rest k

/-- Go map assignment `h.clients[id] = client`: replaces the binding in
place if the key is present, otherwise appends it. -/
def mapSet (l : List (String × Client)) (k : String) (v : Client) :
    List (String × Client) :=
  match l with
  | [] => [(k, v)]
  | (k0, v0) :: rest =>
      if k0 = k then (k, v) :: rest else (k0, v0) :: mapSet rest k v

/-- Go map deletion `delete(h.clients, id)`. -/
def mapDel (l : List (String × Client)) (k : String) :
    List (String × Client) :=
  match l with
  | [] => []
  | (k0, v0) :: rest =>
      if k0 = k then mapDel rest k else (k0, v0) :: mapDel rest k

/-- hub.OnConnect: registers the connection, or replaces an existing one
for the same session id after calling `Close(false)` on it. -/
def OnConnect (h : Hub) (client : Client) (session : Session) : Hub :=
  match mapGet h.clients session.Id with
  | some ec =>
      { h with
        clients := mapSet h.clients session.Id client
        closed := h.closed ++ [(ec.index, false)] }
  | none => { h with clients := mapSet h.clients session.Id client }

/-- hub.OnDisconnect: removes the entry for `session.Id`. -/
def OnDisconnect (h : Hub) (session : Session) : Hub :=
  { h with clients := mapDel h.clients session.Id }

/-- hub.GetClient: read of the clients map. -/
def GetClient (h : Hub) (id : String) : Option Client :=
  mapGet h.clients id

/-- hub.GetSession: `GetClient` followed by `client.Session()`. -/
def GetSession (h : Hub) (id : String) : Option Session :=
  (GetClient h id).map Client.session

/-- Modelled from the spec: the `Contact` struct is declared outside the
given source files; per the spec's data model it is the pair `(A, B)` of
user identifiers representing a consented relation.  hub.go constructs it
positionally as `&Contact{userid, suserid}`. -/
structure Contact where
  A : String
  B : String
deriving DecidableEq

/-- Modelled from the spec: the securecookie codec behind `h.contacts`
(`Encode`/`Decode`) is third-party library code, not part of this
repository; per the spec, tokens are signed and encrypted under
server-held keys, decode is the inverse of encode under the same keys and
name, and rejects tampered tokens.  The codec is embedded symbolically:
`sealed` is the authenticated ciphertext produced by `Encode` under the
hub's hash and block keys, and `mangled t` stands for any token obtained
by tampering with the bytes of `t`, which breaks the signature check.
The Go empty-string token is `SCToken.empty`. -/
inductive SCToken where
  | empty : SCToken
  | sealed (hashKey blockKey : Nat) (name : String) (value : Contact) : SCToken
  | mangled (base : SCToken) : SCToken
deriving DecidableEq

/-- Symbolic model of `h.contacts.Encode(name, value)`. -/
def scEncode (hashKey blockKey : Nat) (name : String) (value : Contact) :
    SCToken :=
  .sealed hashKey blockKey name value

/-- Symbolic model of `h.contacts.Decode(name, token, dst)`: succeeds
exactly on untampered tokens sealed under the same keys and the same
name. -/
def scDecode (hashKey blockKey : Nat) (name : String) :
    SCToken → Option Contact
  | .sealed hk bk n v =>
      if hk = hashKey ∧ bk = blockKey ∧ n = name then some v else none
  | _ => none

/-- The error values produced by hub.go's contact handling, one
constructor per `errors.New` / `fmt.Errorf` site (plus `tokenInvalid`
for a propagated securecookie decode failure). -/
inductive ContactError where
  | tokenInvalid : ContactError
  | noUserid : ContactError
  | unknownToSessionForConfirm : ContactError
  | toHasNoUseridForConfirm : ContactError
  | mismatchInA : ContactError
  | mismatchInB : ContactError
  | unknownToSession : ContactError
  | toHasNoUserid : ContactError
  | selfContact : ContactError
  | foreignToken : ContactError
deriving DecidableEq

/-- The two `ContactMismatch`-category errors of the spec's taxonomy
("contact mismatch in a" / "contact mismatch in b"). -/
def ContactError.isMismatch : ContactError → Bool
  | .mismatchInA => true
  | .mismatchInB => true
  | _ => false

/-- Modelled from the spec: the `DataContactRequest` message type is
declared outside the given source files; hub.go reads and writes its
`Success` and `Token` fields. -/
structure DataContactRequest where
  Success : Bool
  Token : SCToken
deriving DecidableEq

/-- hub.getContactID: decodes the token and returns the user id of the
contact that is not the session's own; a token naming neither side (or
resolving to an empty id) is rejected as a foreign contact token. -/
def getContactID (h : Hub) (session : Session) (token : SCToken) :
    Except ContactError String :=
  match scDecode h.hashKey h.blockKey "contact" token with
  | none => .error .tokenInvalid
  | some contact =>
      let suserid := session.Userid
      let userid :=
        if contact.A = suserid then contact.B
        else if contact.B = suserid then contact.A
        else ""
      if userid = "" then .error .foreignToken else .ok userid

/-- hub.contactrequestHandler: drives the contact request/confirm/deny
exchange.  The Go function mutates `cr.Token` in place and returns an
error; the embedding returns the updated request on success. -/
def contactrequestHandler (h : Hub) (session : Session) (toID : String)
    (cr : DataContactRequest) : Except ContactError DataContactRequest :=
  if cr.Success then
    match scDecode h.hashKey h.blockKey "contact" cr.Token with
    | none => .error .tokenInvalid
    | some contact =>
        let suserid := session.Userid
        if suserid = "" then .error .noUserid
        else
          match GetSession h toID with
          | none => .error .unknownToSessionForConfirm
          | some toSession =>
              let userid := toSession.Userid
              if userid = "" then .error .toHasNoUseridForConfirm
              else if suserid ≠ contact.A then .error .mismatchInA
              else if userid ≠ contact.B then .error .mismatchInB
              else .ok cr
  else
    if cr.Token ≠ .empty then .ok { cr with Token := .empty }
    else
      let suserid := session.Userid
      if suserid = "" then .error .noUserid
      else
        match GetSession h toID with
        | none => .error .unknownToSession
        | some toSession =>
            let userid := toSession.Userid
            if userid = "" then .error .toHasNoUserid
            else if userid = suserid then .error .selfContact
            else
              .ok { cr with
                Token := scEncode h.hashKey h.blockKey "contact"
                  ⟨userid, suserid⟩ }

/-- The fixed TURN credential TTL from hub.go (`turnTTL = 3600`). -/
def turnTTL : Int := 3600

/-- Two's-complement wrap-around of a Go `int32` conversion or signed
overflow (Go defines signed integer overflow as wrapping). -/
def int32wrap (n : Int) : Int := (n + 2147483648) % 4294967296 - 2147483648

/-- The relay credential (`DataTurn`, declared outside the given source
files): username, password, TTL seconds and the configured TURN URIs.
hub.go builds it positionally as `&DataTurn{user, password, turnTTL,
h.config.TurnURIs}`, and `&DataTurn{}` (all fields zero) is the no-auth
credential. -/
structure DataTurn where
  username : String
  password : String
  ttl : Int
  urls : List String
deriving DecidableEq

/-- External crypto collaborators used by CreateTurnData: the SHA-256
and HMAC-SHA1 digests (as byte lists) and standard base64 encoding.
These are Go standard-library primitives, not repository code, so they
enter the embedding as opaque function parameters; the repository code
under verification is the composition around them. -/
structure CryptoOps where
  sha256sum : String → List Nat
  hmacSha1 : List Nat → String → List Nat
  b64encode : List Nat → String

/-- hub.CreateTurnData: with no shared secret configured, the Go zero
value `&DataTurn{}`; otherwise the shared-secret REST credential whose
username embeds the int32 expiration and the base64 SHA-256 hash of the
session id, and whose password is the base64 HMAC-SHA1 of the username
under the secret.  `now` stands for `time.Now().Unix()` at issuance;
the `int32(...)` conversion and the int32 addition both wrap. -/
def CreateTurnData (ops : CryptoOps) (h : Hub) (now : Int)
    (session : Session) : DataTurn :=
  if h.turnSecret.length = 0 then ⟨"", "", 0, []⟩
  else
    let id := ops.b64encode (ops.sha256sum session.Id)
    let expiration := int32wrap (int32wrap now + turnTTL)
    let user := toString expiration ++ ":" ++ id
    let password := ops.b64encode (ops.hmacSha1 h.turnSecret user)
    ⟨user, password, turnTTL, h.turnURIs⟩

/-- One broadcast sent to a room by the dispatcher: the room it goes to
and the public session data carried (user agent and status). -/
structure RoomBroadcast where
  room : String
  ua : String
  status : String
deriving DecidableEq

/-- Per-session state of the join/leave machine, together with logs of
the broadcasts issued and of the JoinRoom/LeaveRoom collaborator calls
(newest last). -/
structure DispatcherState where
  roomid : String
  status : String
  ua : String
  broadcasts : List RoomBroadcast
  joinedRooms : List String
  leftRooms : List String
deriving DecidableEq

/-- Modelled from the spec: the Hello handler of the signaling
dispatcher (channelling_api.go) is not among the given source files;
only its unit tests are.  Per the spec, on a Hello carrying a target
room id: (1) a session holding a non-empty roomid different from the
target performs a soft leave — status is set to "soft", LeaveRoom is
called, the session data is broadcast with that status to the old room,
and membership is cleared; (2) the permission gate CanJoinRoom is
queried, and a denial aborts the transition with nothing further done;
(3) otherwise the session sets its roomid and user agent, JoinRoom is
called, and the updated session data is broadcast to the new room. -/
def helloTransition (canJoin : String → Bool) (target uagent : String)
    (st : DispatcherState) : DispatcherState :=
  let st1 :=
    if st.roomid ≠ "" ∧ st.roomid ≠ target then
      { st with
        status := "soft"
        broadcasts := st.broadcasts ++ [⟨st.roomid, st.ua, "soft"⟩]
        leftRooms := st.leftRooms ++ [st.roomid]
        roomid := "" }
    else st
  if canJoin target then
    { st1 with
      roomid := target
      ua := uagent
      status := ""
      broadcasts := st1.broadcasts ++ [⟨target, uagent, ""⟩]
      joinedRooms := st1.joinedRooms ++ [target] }
  else st1

/- Demonstration values used by the witnesses and counterexamples. -/

def demoSession : Session := ⟨"s1", "u1"⟩

def demoClient1 : Client := ⟨1, demoSession⟩

def demoClient2 : Client := ⟨2, demoSession⟩

def emptyHub : Hub := ⟨[], [], 7, 9, [], []⟩

def demoPeerSession : Session := ⟨"s2", "u2"⟩

def demoPeerClient : Client := ⟨3, demoPeerSession⟩

def demoHub : Hub := ⟨[("s2", demoPeerClient)], [], 7, 9, [1, 2], ["turn:demo"]⟩

/-- Concrete stand-ins for the opaque crypto collaborators, used only to
instantiate witnesses and counterexamples at evaluable inputs. -/
def demoOps : CryptoOps :=
  { sha256sum := fun s => [s.length % 256]
    hmacSha1 := fun key msg => [(key.length + msg.length) % 256]
    b64encode := fun bytes => String.intercalate "." (bytes.map toString) }

/- Helper lemmas about the association-list embedding of the Go map. -/

theorem mapGet_mapSet_self (l : List (String × Client)) (k : String)
    (v : Client) : mapGet (mapSet l k v) k = some v := by
  induction l with
  | nil => simp [mapSet, mapGet]
  | cons p rest ih =>
      obtain ⟨k0, v0⟩ := p
      by_cases hk : k0 = k
      · simp [mapSet, hk, mapGet]
      · simp [mapSet, hk, mapGet, ih]

theorem mem_keys_mapSet (l : List (String × Client)) (k a : String)
    (v : Client) :
    a ∈ (mapSet l k v).map Prod.fst ↔ a ∈ l.map Prod.fst ∨ a = k := by
  induction l with
  | nil => simp [mapSet]
  | cons p rest ih =>
      obtain ⟨k0, v0⟩ := p
      by_cases hk : k0 = k
      · subst hk
        simp [mapSet]
        tauto
      · simp [mapSet, hk, ih]
        tauto

theorem nodup_keys_mapSet (l : List (String × Client)) (k : String)
    (v : Client) (h : (l.map Prod.fst).Nodup) :
    ((mapSet l k v).map Prod.fst).Nodup := by
  induction l with
  | nil => simp [mapSet]
  | cons p rest ih =>
      obtain ⟨k0, v0⟩ := p
      rw [List.map_cons, List.nodup_cons] at h
      by_cases hk : k0 = k
      · subst hk
        have hset : mapSet ((k0, v0) :: rest) k0 v = (k0, v) :: rest := by
          simp [mapSet]
        rw [hset, List.map_cons, List.nodup_cons]
        exact h
      · simp only [mapSet, if_neg hk]
        rw [List.map_cons, List.nodup_cons]
        refine ⟨?_, ih h.2⟩
        rw [mem_keys_mapSet]
        rintro (hmem | hmem)
        · exact h.1 hmem
        · exact hk hmem

theorem mapGet_mapDel_self (l : List (String × Client)) (k : String) :
    mapGet (mapDel l k) k = none := by
  induction l with
  | nil => simp [mapDel, mapGet]
  | cons p rest ih =>
      obtain ⟨k0, v0⟩ := p
      by_cases hk : k0 = k
      · simpa [mapDel, hk] using ih
      · simp [mapDel, hk, mapGet, ih]

theorem mapDel_of_not_mem (l : List (String × Client)) (k : String)
    (h : mapGet l k = none) : mapDel l k = l := by
  induction l with
  | nil => rfl
  | cons p rest ih =>
      obtain ⟨k0, v0⟩ := p
      simp only [mapGet] at h
      by_cases hk : k0 = k
      · simp [hk] at h
      · simp only [hk, if_false] at h
        simp [mapDel, hk, ih h]

theorem OnConnect_clients (h : Hub) (c : Client) (s : Session) :
    (OnConnect h c s).clients = mapSet h.clients s.Id c := by
  unfold OnConnect
  cases mapGet h.clients s.Id <;> rfl

theorem OnConnect_closed_of_get (h : Hub) (c ec : Client) (s : Session)
    (hget : mapGet h.clients s.Id = some ec) :
    (OnConnect h c s).closed = h.closed ++ [(ec.index, false)] := by
  unfold OnConnect
  rw [hget]

/-- C1: registering a second client under a session id that already has a
live registry entry forcibly closes the prior client non-gracefully
(`Close(false)` is logged for it), replaces the entry so that a lookup of
the id returns only the newly registered client, and preserves the
registry invariant that each session id has at most one live entry
(no duplicate keys). -/
theorem C1_register_replaces_and_closes (st : Hub) (c1 c2 : Client)
    (s : Session) (hnodup : (st.clients.map Prod.fst).Nodup) :
    GetClient (OnConnect (OnConnect st c1 s) c2 s) s.Id = some c2 ∧
    (c1.index, false) ∈ (OnConnect (OnConnect st c1 s) c2 s).closed ∧
    (((OnConnect (OnConnect st c1 s) c2 s)).clients.map Prod.fst).Nodup := by
  have hget1 : mapGet (OnConnect st c1 s).clients s.Id = some c1 := by
    rw [OnConnect_clients, mapGet_mapSet_self]
  refine ⟨?_, ?_, ?_⟩
  · rw [GetClient, OnConnect_clients, mapGet_mapSet_self]
  · rw [OnConnect_closed_of_get (OnConnect st c1 s) c2 c1 s hget1]
    simp
  · rw [OnConnect_clients, OnConnect_clients]
    exact nodup_keys_mapSet _ _ _ (nodup_keys_mapSet _ _ _ hnodup)

/-- Witness for C1 at a concrete hub state. -/
theorem C1_register_replaces_and_closes_witness :
    ((emptyHub.clients.map Prod.fst).Nodup) ∧
    (GetClient (OnConnect (OnConnect emptyHub demoClient1 demoSession)
        demoClient2 demoSession) demoSession.Id = some demoClient2 ∧
     (demoClient1.index, false) ∈
        (OnConnect (OnConnect emptyHub demoClient1 demoSession)
          demoClient2 demoSession).closed ∧
     (((OnConnect (OnConnect emptyHub demoClient1 demoSession)
          demoClient2 demoSession)).clients.map Prod.fst).Nodup) :=
  ⟨by decide,
   C1_register_replaces_and_closes emptyHub demoClient1 demoClient2
     demoSession (by decide)⟩

/-- C8: after `Register(s, c)` followed by `Unregister(s)`, a lookup of
`s.Id` returns not-found; and `Unregister` is idempotent: unregistering a
session id with no registry entry leaves the hub state unchanged. -/
theorem C8_unregister_removes_and_is_idempotent (st : Hub) (c : Client)
    (s : Session) :
    GetClient (OnDisconnect (OnConnect st c s) s) s.Id = none ∧
    (GetClient st s.Id = none → OnDisconnect st s = st) := by
  constructor
  · simp [GetClient, OnDisconnect, mapGet_mapDel_self]
  · intro hnone
    simp only [OnDisconnect, mapDel_of_not_mem st.clients s.Id hnone]

/-- Witness for C8 at a concrete hub state. -/
theorem C8_unregister_removes_and_is_idempotent_witness :
    GetClient (OnDisconnect (OnConnect emptyHub demoClient1 demoSession)
      demoSession) demoSession.Id = none ∧
    OnDisconnect emptyHub demoSession = emptyHub :=
  ⟨(C8_unregister_removes_and_is_idempotent emptyHub demoClient1 demoSession).1,
   (C8_unregister_removes_and_is_idempotent emptyHub demoClient1 demoSession).2
     (by decide)⟩

/-- C7: encoding a Contact `(A, B)` into a token and decoding it under
the same keys yields the identical pair; decoding any tampered token
fails, and at the repository's decode site (`getContactID`) that failure
surfaces as the token-invalid error rather than a contact. -/
theorem C7_token_roundtrip_and_tamper_rejected (hk bk : Nat) (A B : String)
    (h : Hub) (s : Session) (t : SCToken) :
    scDecode hk bk "contact" (scEncode hk bk "contact" ⟨A, B⟩) =
      some ⟨A, B⟩ ∧
    scDecode hk bk "contact" (SCToken.mangled t) = none ∧
    getContactID h s (SCToken.mangled t) = .error .tokenInvalid := by
  refine ⟨by simp [scEncode, scDecode], rfl, rfl⟩

/-- C3 (confirm replies): with a token that decodes to contact `c`, a
non-empty own user id and a registered target session with a non-empty
user id, the confirm succeeds exactly when the own user id equals `c.A`
and the target's user id equals `c.B`; a mismatch in `A` fails with
"contact mismatch in a", and a mismatch in `B` alone fails with
"contact mismatch in b" (both of the spec's ContactMismatch category). -/
theorem C3_confirm_succeeds_iff_ids_match (h : Hub) (s toSession : Session)
    (toID : String) (c : Contact)
    (hsu : s.Userid ≠ "")
    (hto : GetSession h toID = some toSession)
    (htu : toSession.Userid ≠ "") :
    (contactrequestHandler h s toID
        ⟨true, scEncode h.hashKey h.blockKey "contact" c⟩ =
        .ok ⟨true, scEncode h.hashKey h.blockKey "contact" c⟩ ↔
      s.Userid = c.A ∧ toSession.Userid = c.B) ∧
    (s.Userid ≠ c.A →
      contactrequestHandler h s toID
        ⟨true, scEncode h.hashKey h.blockKey "contact" c⟩ =
        .error .mismatchInA) ∧
    (s.Userid = c.A → toSession.Userid ≠ c.B →
      contactrequestHandler h s toID
        ⟨true, scEncode h.hashKey h.blockKey "contact" c⟩ =
        .error .mismatchInB) := by
  have heval : contactrequestHandler h s toID
      ⟨true, scEncode h.hashKey h.blockKey "contact" c⟩ =
      if s.Userid = c.A then
        (if toSession.Userid = c.B then
          .ok ⟨true, scEncode h.hashKey h.blockKey "contact" c⟩
        else .error .mismatchInB)
      else .error .mismatchInA := by
    simp [contactrequestHandler, scEncode, scDecode, hto, hsu, htu, ite_not]
  refine ⟨?_, ?_, ?_⟩
  · rw [heval]
    by_cases hA : s.Userid = c.A
    · by_cases hB : toSession.Userid = c.B
      · simp [hA, hB]
      · simp [hA, hB]
    · simp [hA]
  · intro hA
    rw [heval, if_neg hA]
  · intro hA hB
    rw [heval, if_pos hA, if_neg hB]

/-- Witness for C3 at a concrete hub with a registered peer. -/
theorem C3_confirm_succeeds_iff_ids_match_witness :
    (demoSession.Userid ≠ "" ∧
     GetSession demoHub "s2" = some demoPeerSession ∧
     demoPeerSession.Userid ≠ "") ∧
    (contactrequestHandler demoHub demoSession "s2"
        ⟨true, scEncode demoHub.hashKey demoHub.blockKey "contact"
          ⟨"u1", "u2"⟩⟩ =
        .ok ⟨true, scEncode demoHub.hashKey demoHub.blockKey "contact"
          ⟨"u1", "u2"⟩⟩ ↔
      demoSession.Userid = "u1" ∧ demoPeerSession.Userid = "u2") :=
  ⟨⟨by decide, by decide, by decide⟩,
   (C3_confirm_succeeds_iff_ids_match demoHub demoSession demoPeerSession
      "s2" ⟨"u1", "u2"⟩ (by decide) (by decide) (by decide)).1⟩

/-- Counterexample to C4 as stated: when the requesting session's own
user id is empty AND the target session id is not registered, the code
fails with "no userid" (MissingIdentity), not PeerNotFound — the own-id
check precedes the registry lookup. -/
theorem C4_counterexample_missing_id_beats_peer_not_found :
    GetSession demoHub "absent" = none ∧
    contactrequestHandler demoHub ⟨"s3", ""⟩ "absent" ⟨false, .empty⟩ =
      .error .noUserid ∧
    ¬ (contactrequestHandler demoHub ⟨"s3", ""⟩ "absent" ⟨false, .empty⟩ =
      .error .unknownToSession) := by
  refine ⟨rfl, rfl, fun hcontra => ?_⟩
  rw [show contactrequestHandler demoHub ⟨"s3", ""⟩ "absent"
      ⟨false, .empty⟩ = Except.error ContactError.noUserid from rfl] at hcontra
  injection hcontra with hcontra2
  exact ContactError.noConfusion hcontra2

/-- C4 (amended): for a new contact request (`success=false`, empty
token), the checks run in this order: an empty own user id fails with
"no userid" (MissingIdentity); otherwise an unregistered target fails
with "unknown to session" (PeerNotFound); otherwise an empty target user
id fails with "to has no userid" (MissingIdentity); otherwise equal user
ids fail with SelfContactError; otherwise the request succeeds and the
token encodes exactly `Contact{A: target user id, B: own user id}`. -/
theorem C4_new_request_checks_in_order (h : Hub) (s : Session)
    (toID : String) (toSession : Session) :
    (s.Userid = "" →
      contactrequestHandler h s toID ⟨false, .empty⟩ = .error .noUserid) ∧
    (s.Userid ≠ "" → GetSession h toID = none →
      contactrequestHandler h s toID ⟨false, .empty⟩ =
        .error .unknownToSession) ∧
    (s.Userid ≠ "" → GetSession h toID = some toSession →
      toSession.Userid = "" →
      contactrequestHandler h s toID ⟨false, .empty⟩ =
        .error .toHasNoUserid) ∧
    (s.Userid ≠ "" → GetSession h toID = some toSession →
      toSession.Userid = s.Userid →
      contactrequestHandler h s toID ⟨false, .empty⟩ =
        .error .selfContact) ∧
    (s.Userid ≠ "" → GetSession h toID = some toSession →
      toSession.Userid ≠ "" → toSession.Userid ≠ s.Userid →
      contactrequestHandler h s toID ⟨false, .empty⟩ =
        .ok ⟨false, scEncode h.hashKey h.blockKey "contact"
          ⟨toSession.Userid, s.Userid⟩⟩) := by
  refine ⟨?_, ?_, ?_, ?_, ?_⟩
  · intro h1
    simp [contactrequestHandler, h1]
  · intro h1 h2
    simp [contactrequestHandler, h1, h2]
  · intro h1 h2 h3
    simp [contactrequestHandler, h1, h2, h3]
  · intro h1 h2 h3
    have h4 : toSession.Userid ≠ "" := by
      rw [h3]; exact h1
    simp [contactrequestHandler, h1, h2, h3, h4]
  · intro h1 h2 h3 h4
    simp [contactrequestHandler, h1, h2, h3, h4]

/-- Witness for C4 (amended) at a concrete hub: a successful new request
against the registered peer returns the token `Contact{A:"u2", B:"u1"}`. -/
theorem C4_new_request_checks_in_order_witness :
    (demoSession.Userid ≠ "" ∧
     GetSession demoHub "s2" = some demoPeerSession ∧
     demoPeerSession.Userid ≠ "" ∧
     demoPeerSession.Userid ≠ demoSession.Userid) ∧
    contactrequestHandler demoHub demoSession "s2" ⟨false, .empty⟩ =
      .ok ⟨false, scEncode demoHub.hashKey demoHub.blockKey "contact"
        ⟨demoPeerSession.Userid, demoSession.Userid⟩⟩ :=
  ⟨⟨by decide, by decide, by decide, by decide⟩,
   (C4_new_request_checks_in_order demoHub demoSession "s2"
      demoPeerSession).2.2.2.2 (by decide) (by decide) (by decide) (by decide)⟩

/-- Counterexample to C9 as stated: for a session with empty user id and
a token whose contact is `("", "")`, the claim predicts success returning
`c.B`; the code instead rejects the token as foreign, because the
resolved other-party id is empty. -/
theorem C9_counterexample_empty_resolved_id_is_foreign :
    getContactID demoHub ⟨"s1", ""⟩
        (scEncode demoHub.hashKey demoHub.blockKey "contact" ⟨"", ""⟩) =
      .error .foreignToken ∧
    ¬ (getContactID demoHub ⟨"s1", ""⟩
        (scEncode demoHub.hashKey demoHub.blockKey "contact" ⟨"", ""⟩) =
      .ok "") := by
  refine ⟨rfl, fun hcontra => ?_⟩
  rw [show getContactID demoHub ⟨"s1", ""⟩
      (scEncode demoHub.hashKey demoHub.blockKey "contact" ⟨"", ""⟩) =
      Except.error ContactError.foreignToken from rfl] at hcontra
  exact Except.noConfusion hcontra

/-- C9 (amended): `getContactID` on a token that decodes to contact `c`
returns `c.B` when the session's user id equals `c.A` and `c.B` is
non-empty, else `c.A` when the session's user id equals `c.B` and `c.A`
is non-empty, and in every other case (including an empty resolved id)
fails with the foreign-token error; no non-empty caller identity is
required, so an empty user id with `c.A` empty and `c.B` non-empty
succeeds and returns `c.B`. -/
theorem C9_getContactID_resolves_other_party (h : Hub) (s : Session)
    (c : Contact) :
    getContactID h s (scEncode h.hashKey h.blockKey "contact" c) =
      (if c.A = s.Userid then
        (if c.B = "" then .error .foreignToken else .ok c.B)
      else if c.B = s.Userid then
        (if c.A = "" then .error .foreignToken else .ok c.A)
      else .error .foreignToken) := by
  have hdec : scDecode h.hashKey h.blockKey "contact"
      (scEncode h.hashKey h.blockKey "contact" c) = some c := by
    simp [scEncode, scDecode]
  simp only [getContactID, hdec]
  by_cases hA : c.A = s.Userid
  · simp [hA]
  · by_cases hB : c.B = s.Userid
    · simp [hA, hB]
    · simp [hA, hB]

theorem int32wrap_eq_self (n : Int) (hl : -2147483648 ≤ n)
    (hr : n < 2147483648) : int32wrap n = n := by
  unfold int32wrap
  have h2 : (n + 2147483648) % 4294967296 = n + 2147483648 :=
    Int.emod_eq_of_lt (by omega) (by omega)
  omega

/-- C5: credential issuance is total and never fails: with an empty
relay shared secret it returns the empty no-auth credential; otherwise
it returns the tuple (username, password, ttl, configured URIs) with
username of the form "expiration:base64(SHA-256(session id))", password
equal to base64(HMAC-SHA1(secret, username)), and ttl the fixed
constant 3600. -/
theorem C5_issue_credential_total (ops : CryptoOps) (h : Hub) (now : Int)
    (s : Session) :
    (h.turnSecret = [] → CreateTurnData ops h now s = ⟨"", "", 0, []⟩) ∧
    (h.turnSecret ≠ [] → ∃ e : Int,
      (CreateTurnData ops h now s).username =
        toString e ++ ":" ++ ops.b64encode (ops.sha256sum s.Id) ∧
      (CreateTurnData ops h now s).password =
        ops.b64encode (ops.hmacSha1 h.turnSecret
          (CreateTurnData ops h now s).username) ∧
      (CreateTurnData ops h now s).ttl = 3600 ∧
      (CreateTurnData ops h now s).urls = h.turnURIs) := by
  constructor
  · intro hempty
    simp [CreateTurnData, hempty]
  · intro hsec
    have hlen : ¬ h.turnSecret.length = 0 := by
      intro hc
      exact hsec (List.length_eq_zero.mp hc)
    refine ⟨int32wrap (int32wrap now + turnTTL), ?_, ?_, ?_, ?_⟩ <;>
      simp [CreateTurnData, hlen, turnTTL]

/-- Witness for C5 at a concrete hub with a non-empty secret. -/
theorem C5_issue_credential_total_witness :
    demoHub.turnSecret ≠ [] ∧
    (∃ e : Int,
      (CreateTurnData demoOps demoHub 1000 demoSession).username =
        toString e ++ ":" ++
          demoOps.b64encode (demoOps.sha256sum demoSession.Id) ∧
      (CreateTurnData demoOps demoHub 1000 demoSession).password =
        demoOps.b64encode (demoOps.hmacSha1 demoHub.turnSecret
          (CreateTurnData demoOps demoHub 1000 demoSession).username) ∧
      (CreateTurnData demoOps demoHub 1000 demoSession).ttl = 3600 ∧
      (CreateTurnData demoOps demoHub 1000 demoSession).urls =
        demoHub.turnURIs) :=
  ⟨by decide,
   (C5_issue_credential_total demoOps demoHub 1000 demoSession).2
     (by decide)⟩

/-- Counterexample to C6 as stated: at issuance time
now = 2147483647 (the largest int32), the int32 addition
`int32(now) + turnTTL` wraps, so the expiration embedded in the
username is -2147480049, far below now + ttl - 1. -/
theorem C6_counterexample_int32_overflow :
    (CreateTurnData demoOps demoHub 2147483647 demoSession).username =
      toString (-2147480049 : Int) ++ ":" ++
        demoOps.b64encode (demoOps.sha256sum demoSession.Id) ∧
    (-2147480049 : Int) < 2147483647 + turnTTL - 1 := by
  constructor
  · rfl
  · decide

/-- C6 (amended): for every issued credential (configured secret), at
every issuance time `now` — overflowing ones included — recomputing
HMAC-SHA1 over the issued username with the same secret reproduces the
issued password exactly; and whenever 0 ≤ now and now + ttl ≤ 2^31 - 1
(i.e. before the int32 expiration overflows in 2038), the expiration
embedded in the username is exactly now + ttl, hence at least
now + ttl - 1. -/
theorem C6_password_deterministic_and_expiration_bound (ops : CryptoOps)
    (h : Hub) (now : Int) (s : Session) (hsec : h.turnSecret ≠ []) :
    ((CreateTurnData ops h now s).password =
      ops.b64encode (ops.hmacSha1 h.turnSecret
        (CreateTurnData ops h now s).username)) ∧
    (0 ≤ now → now + turnTTL ≤ 2147483647 →
      (CreateTurnData ops h now s).username =
        toString (now + turnTTL) ++ ":" ++
          ops.b64encode (ops.sha256sum s.Id) ∧
      now + turnTTL ≥ now + turnTTL - 1) := by
  have hlen : ¬ h.turnSecret.length = 0 := by
    intro hc
    exact hsec (List.length_eq_zero.mp hc)
  constructor
  · simp [CreateTurnData, hlen]
  · intro h0 hbound
    have httl : turnTTL = 3600 := rfl
    have hw1 : int32wrap now = now :=
      int32wrap_eq_self now (by omega) (by omega)
    have hw2 : int32wrap (now + turnTTL) = now + turnTTL :=
      int32wrap_eq_self (now + turnTTL) (by omega) (by omega)
    refine ⟨?_, by omega⟩
    simp [CreateTurnData, hlen, hw1, hw2]

/-- Witness for C6 (amended) at a concrete non-overflowing time. -/
theorem C6_password_deterministic_and_expiration_bound_witness :
    (demoHub.turnSecret ≠ [] ∧ (0 : Int) ≤ 1000 ∧
      (1000 : Int) + turnTTL ≤ 2147483647) ∧
    ((CreateTurnData demoOps demoHub 1000 demoSession).password =
      demoOps.b64encode (demoOps.hmacSha1 demoHub.turnSecret
        (CreateTurnData demoOps demoHub 1000 demoSession).username) ∧
    ((CreateTurnData demoOps demoHub 1000 demoSession).username =
      toString ((1000 : Int) + turnTTL) ++ ":" ++
        demoOps.b64encode (demoOps.sha256sum demoSession.Id) ∧
    (1000 : Int) + turnTTL ≥ (1000 : Int) + turnTTL - 1)) :=
  ⟨⟨by decide, by decide, by decide⟩,
   (C6_password_deterministic_and_expiration_bound demoOps demoHub 1000
      demoSession (by decide)).1,
   (C6_password_deterministic_and_expiration_bound demoOps demoHub 1000
      demoSession (by decide)).2 (by decide) (by decide)⟩

/-- Counterexample to C2 as stated: a Hello from a session in room "a"
to a different room "b" that CanJoinRoom denies still performs the soft
leave of step 1 — one broadcast is issued and the room membership is
cleared — before the permission gate aborts the transition, so a denied
join does not always have zero broadcasts and unchanged membership. -/
theorem C2_counterexample_denied_switch_still_soft_leaves :
    (helloTransition (fun _ => false) "b" "ua1"
        ⟨"a", "", "ua0", [], ["a"], []⟩).broadcasts =
      [⟨"a", "ua0", "soft"⟩] ∧
    (helloTransition (fun _ => false) "b" "ua1"
        ⟨"a", "", "ua0", [], ["a"], []⟩).roomid ≠ "a" := by
  exact ⟨rfl, by decide⟩

/-- C2 (amended): a permitted join from the unjoined state issues
exactly one broadcast (the joining session's data, to the new room) and
sets the membership; a permitted switch from a non-empty room to a
different room issues exactly two broadcasts, first the session's data
with status "soft" to the old room, then its data to the new room, in
that order; a denied join leaves the state entirely unchanged (zero
broadcasts, zero membership change) when the session is unjoined or
already in the target room, while a denied switch from a different room
still performs the soft leave of step 1 before aborting. -/
theorem C2_hello_broadcasts (canJoin : String → Bool)
    (st : DispatcherState) (target uagent : String) :
    (st.roomid = "" → canJoin target = true →
      (helloTransition canJoin target uagent st).broadcasts =
        st.broadcasts ++ [⟨target, uagent, ""⟩] ∧
      (helloTransition canJoin target uagent st).roomid = target) ∧
    (st.roomid ≠ "" → st.roomid ≠ target → canJoin target = true →
      (helloTransition canJoin target uagent st).broadcasts =
        st.broadcasts ++ [⟨st.roomid, st.ua, "soft"⟩, ⟨target, uagent, ""⟩]) ∧
    ((st.roomid = "" ∨ st.roomid = target) → canJoin target = false →
      helloTransition canJoin target uagent st = st) := by
  refine ⟨?_, ?_, ?_⟩
  · intro h1 h2
    constructor <;> simp [helloTransition, h1, h2]
  · intro h1 h2 h3
    simp [helloTransition, h1, h2, h3]
  · rintro (h1 | h1) h2
    · simp [helloTransition, h1, h2]
    · simp [helloTransition, h1, h2]

/-- Witness for C2 (amended): a permitted first join at concrete
inputs, mirroring the JoinsTheSelectedRoom unit test. -/
theorem C2_hello_broadcasts_witness :
    ((⟨"", "", "", [], [], []⟩ : DispatcherState).roomid = "" ∧
      (fun _ => true : String → Bool) "foobar" = true) ∧
    ((helloTransition (fun _ => true) "foobar" "unit tests"
        ⟨"", "", "", [], [], []⟩).broadcasts =
      ([] : List RoomBroadcast) ++ [⟨"foobar", "unit tests", ""⟩] ∧
     (helloTransition (fun _ => true) "foobar" "unit tests"
        ⟨"", "", "", [], [], []⟩).roomid = "foobar") :=
  ⟨⟨rfl, rfl⟩,
   (C2_hello_broadcasts (fun _ => true) ⟨"", "", "", [], [], []⟩
      "foobar" "unit tests").1 rfl rfl⟩

end Spreed
